import Mathlib

/-!
Shallow embedding of the DelayedDistractions chess-puzzle feed
(src/app/app/(tabs)/puzzles.tsx, src/app/app/index.tsx,
src/my-app/app/lib/config.ts, and the storage wrapper).

The external chess.js rules engine is a black box: a board's live engine
instance is modelled as its opaque serialized position string, which none
of the state-updating functions below ever touch (in the source, the
`setBoards` map callbacks never read or write `b.chess`; the engine object
is mutated elsewhere, in the Board component, only for the board the move
was played on).
-/

/-- A chess square, e.g. "e2" (chess.js `Square`). -/
abbrev Square := String

/-- Side to move: white or black. -/
inductive Side
  | w
  | b
deriving DecidableEq, Repr, Inhabited

/-- Promotion piece kind 'q' | 'r' | 'b' | 'n'. -/
inductive PromoPiece
  | q
  | r
  | b
  | n
deriving DecidableEq, Repr, Inhabited

/-- `type LastMove = { from: Square; to: Square }` — the move just played.
Note it carries no promotion field at all. -/
structure LastMove where
  from_ : Square
  to_ : Square
deriving DecidableEq, Repr, Inhabited

/-- `type MoveSpec = { from: Square; to: Square; promotion?: ... }` — one
expected solution step. -/
structure MoveSpec where
  from_ : Square
  to_ : Square
  promotion : Option PromoPiece := none
deriving DecidableEq, Repr, Inhabited

/-- `type BoardModel` from puzzles.tsx. The `chess : Chess` field is the
external engine instance, modelled as its opaque position string. -/
structure BoardModel where
  id : String
  chess : String
  liked : Bool
  starred : Bool
  version : Nat
  tactic : String
  sideToPlay : Side
  lastMove : Option LastMove := none
  solution : List MoveSpec
  stepIndex : Nat
  solved : Bool
  correctSquares : List Square
  lastMoveCorrect : Option Bool := none
deriving DecidableEq, Repr, Inhabited

/-- One entry of the hard-coded `PRESET_PUZZLES` catalog. -/
structure PuzzlePreset where
  fen : String
  tactic : String
  sideToPlay : Side
  solution : List MoveSpec
deriving DecidableEq, Repr, Inhabited

/-- The hard-coded list of 10 puzzles (puzzles.tsx lines 34-101). -/
def PRESET_PUZZLES : List PuzzlePreset := [
  { fen := "rnbqkbnr/pppppppp/8/8/8/8/PPPPPPPP/RNBQKBNR w KQkq - 0 1",
    tactic := "Double Attack", sideToPlay := .w,
    solution := [{ from_ := "e2", to_ := "e4" }] },
  { fen := "rnbqkbnr/pppppppp/8/8/8/8/PPPPPPPP/RNBQKBNR b KQkq - 0 1",
    tactic := "Pin", sideToPlay := .b,
    solution := [{ from_ := "e7", to_ := "e5" }] },
  { fen := "r1bqkbnr/pppp1ppp/2n5/4p3/3P4/5N2/PPP1PPPP/RNBQKB1R w KQkq - 2 3",
    tactic := "Fork", sideToPlay := .w,
    solution := [{ from_ := "d4", to_ := "e5" }, { from_ := "f3", to_ := "d4" }] },
  { fen := "rnbqk2r/ppp2ppp/3b1n2/3pp3/3P4/2P1PN2/PP1N1PPP/R1BQKB1R w KQkq - 0 6",
    tactic := "Skewer", sideToPlay := .w,
    solution := [{ from_ := "d1", to_ := "b3" }] },
  { fen := "r1bqkbnr/pppp1ppp/2n5/4p3/3P4/2N5/PPP1PPPP/R1BQKBNR b KQkq - 1 3",
    tactic := "Discovered Attack", sideToPlay := .b,
    solution := [{ from_ := "c6", to_ := "d4" }] },
  { fen := "rnbq1rk1/ppp2ppp/3b1n2/3pp3/3P4/2P1PN2/PP1N1PPP/R1BQ1RK1 w - - 2 8",
    tactic := "Back Rank Mate", sideToPlay := .w,
    solution := [{ from_ := "d1", to_ := "d8" }] },
  { fen := "r1bqk2r/ppp2ppp/2nb1n2/3pp3/3P4/2P1PN2/PP1N1PPP/R1BQKB1R b KQkq - 2 6",
    tactic := "Smothered Mate", sideToPlay := .b,
    solution := [{ from_ := "e8", to_ := "g8" }, { from_ := "g8", to_ := "h8" }] },
  { fen := "r1bqk2r/ppp2ppp/2nb1n2/3pp3/3P4/2P1PN2/PP1N1PPP/R1BQKB1R w KQkq - 3 7",
    tactic := "Queen Sacrifice", sideToPlay := .w,
    solution := [{ from_ := "d1", to_ := "h5" }] },
  { fen := "rnbqk2r/ppp2ppp/3b1n2/3pp3/3P4/2P1PN2/PP1N1PPP/R1BQKB1R w KQkq - 0 6",
    tactic := "Deflection", sideToPlay := .w,
    solution := [{ from_ := "c3", to_ := "d4" }] },
  { fen := "r1bqkbnr/pppp1ppp/2n5/4p3/3P4/2N5/PPP1PPPP/R1BQKBNR w KQkq - 2 3",
    tactic := "Overloading", sideToPlay := .w,
    solution := [{ from_ := "c3", to_ := "d5" }] }
]

/-- `createBoardFromPreset` (puzzles.tsx lines 103-107): fresh instance with
all progression/reaction fields at their defaults, the engine loaded with the
preset's position. -/
def createBoardFromPreset (p : PuzzlePreset) (id : String) : BoardModel :=
  { id := id, chess := p.fen, liked := false, starred := false, version := 0,
    tactic := p.tactic, sideToPlay := p.sideToPlay, solution := p.solution,
    stepIndex := 0, solved := false, correctSquares := [] }

/-- `PRESET_PUZZLES[i % PRESET_PUZZLES.length]` — the catalog entry used for
instance `i`; the index is always in range since the catalog has 10 entries. -/
def presetAt (i : Nat) : PuzzlePreset :=
  PRESET_PUZZLES.getD (i % PRESET_PUZZLES.length) default

/-- `const playedMatches = expected ? (expected.from === last.from &&
expected.to === last.to) : true` with `expected = b.solution[step]`
(puzzles.tsx lines 364-366): out-of-range lookup counts as a match. -/
def playedMatches (b : BoardModel) (last : LastMove) : Bool :=
  match b.solution.get? b.stepIndex with
  | some expected => expected.from_ == last.from_ && expected.to_ == last.to_
  | none => true

/-- `const solvedNow = nextStep >= (b.solution?.length ?? 0) &&
(b.solution?.length ?? 0) > 0` with `nextStep = step + 1`
(puzzles.tsx line 376). -/
def solvedNow (b : BoardModel) : Bool :=
  decide (b.solution.length ≤ b.stepIndex + 1) && decide (0 < b.solution.length)

/-- The per-board state update of `onMovePlayed` (puzzles.tsx lines 362-394):
the branch taken by the board whose id matches. -/
def moveUpdate (b : BoardModel) (last : LastMove) : BoardModel :=
  if playedMatches b last then
    { b with lastMove := some last, lastMoveCorrect := some true,
             stepIndex := b.stepIndex + 1,
             solved := if solvedNow b then true else b.solved,
             correctSquares := [last.to_],
             version := b.version + 1 }
  else
    { b with lastMove := some last, lastMoveCorrect := some false,
             correctSquares := [], version := b.version + 1 }

/-- The auto-advance scheduled by `onMovePlayed` for the matched board at
index `i` in a feed of length `total`: `some target` iff a
`scrollToIndex(min(i+1, total-1))` timeout is set (incorrect branch, line
368-371, or solved branch, line 377-381), `none` otherwise. -/
def moveAdvance (b : BoardModel) (last : LastMove) (i total : Nat) : Option Nat :=
  if playedMatches b last then
    if solvedNow b then some (min (i + 1) (total - 1)) else none
  else
    some (min (i + 1) (total - 1))

/-- The full `setBoards` map of `onMovePlayed` (line 362):
`prev.map(b => b.id !== id ? b : <update>)`. -/
def onMovePlayed (boards : List BoardModel) (id : String) (last : LastMove) :
    List BoardModel :=
  boards.map (fun b => if b.id = id then moveUpdate b last else b)

/-- `toggleLike` from `LikeStarActions` (puzzles.tsx lines 530-534):
`prev.map(b => b.id === item.id ? { ...b, liked: !b.liked } : b)`. -/
def toggleLike (boards : List BoardModel) (id : String) : List BoardModel :=
  boards.map (fun b => if b.id = id then { b with liked := !b.liked } else b)

/-- `toggleStar` from `LikeStarActions` (puzzles.tsx lines 546-548). -/
def toggleStar (boards : List BoardModel) (id : String) : List BoardModel :=
  boards.map (fun b => if b.id = id then { b with starred := !b.starred } else b)

/-- Feed controller state from `useBoards` (puzzles.tsx lines 109-129):
the materialized boards plus `cursorRef`. The single-flight `loadingRef`
guard only coalesces concurrent appends; in the single-threaded model each
completed append is one `addBoard` step. -/
structure FeedState where
  boards : List BoardModel
  cursor : Nat
deriving Repr

/-- `useBoards(initial)` initial state: boards `b-0 .. b-(initial-1)` built
from `PRESET_PUZZLES[i % K]`, cursor at `initial`. -/
def initBoards (initial : Nat) : FeedState :=
  { boards := (List.range initial).map
      (fun i => createBoardFromPreset (presetAt i) ("b-" ++ toString i)),
    cursor := initial }

/-- One completed `addBoard` append (puzzles.tsx lines 118-126): the new
instance uses `PRESET_PUZZLES[cursor % K]` and id `b-${prev.length}`, is
appended at the end, and the cursor advances. -/
def addBoard (s : FeedState) : FeedState :=
  { boards := s.boards ++
      [createBoardFromPreset (presetAt s.cursor) ("b-" ++ toString s.boards.length)],
    cursor := s.cursor + 1 }

/-- `FORCE_ONBOARDING_EVERY_TIME` (src/my-app/app/lib/config.ts line 2). -/
def FORCE_ONBOARDING_EVERY_TIME : Bool := true

/-- The `hasCompletedRef` value after the startup read (index.tsx lines
16-21): `none` models the read throwing (caught, ref keeps its initial
`false`), `some v` a successful read returning value `v` (possibly null);
the ref becomes true only when `v === "1"`. -/
def readCompleted (res : Option (Option String)) : Bool :=
  match res with
  | some (some v) => v == "1"
  | _ => false

/-- The route chosen at the end of the splash animation (index.tsx lines
41-46). -/
def decideRoute (force : Bool) (hasCompleted : Bool) : String :=
  if force then "/onboarding"
  else if hasCompleted then "/(tabs)/puzzles"
  else "/onboarding"

/-- The route the Splash screen actually takes for a given read outcome. -/
def splashRoute (res : Option (Option String)) : String :=
  decideRoute FORCE_ONBOARDING_EVERY_TIME (readCompleted res)

/-- `completeAndEnter` from the Onboarding screen
(src/my-app/app/notifications.tsx lines 53-58): writes "1" under the single
key "onboardingCompleted" (best-effort, failure swallowed by try/catch;
modelled here as the successful write) and routes to the puzzles feed.
Returns the updated key-value store and the route. -/
def completeAndEnter (store : String → Option String) :
    (String → Option String) × String :=
  (fun k => if k = "onboardingCompleted" then some "1" else store k,
   "/(tabs)/puzzles")

/-- Playing the move prescribed by the current solution step, as in C2's
scenario: the played move copies `solution[stepIndex].from/.to_`; a no-op
once `stepIndex` is past the end. -/
def stepMove (b : BoardModel) : BoardModel :=
  match b.solution.get? b.stepIndex with
  | some m => moveUpdate b { from_ := m.from_, to_ := m.to_ }
  | none => b

/-- Erase the promotion field of an expected step (for promotion-independence
of classification). -/
def erasePromo (m : MoveSpec) : MoveSpec :=
  { m with promotion := none }

example : (moveUpdate (createBoardFromPreset (presetAt 0) "b-0")
    { from_ := "e2", to_ := "e4" }).solved = true := by decide

example : (moveUpdate (createBoardFromPreset (presetAt 0) "b-0")
    { from_ := "d2", to_ := "d4" }).stepIndex = 0 := by decide

lemma playedMatches_of_out_of_range (b : BoardModel) (last : LastMove)
    (h : b.solution.length ≤ b.stepIndex) : playedMatches b last = true := by
  unfold playedMatches
  rw [List.get?_eq_none.mpr h]

/-- A fully solved instance of the first preset (solution length 1,
stepIndex already at 1). -/
def bC1 : BoardModel :=
  { createBoardFromPreset (presetAt 0) "b-0" with stepIndex := 1, solved := true }

/-- C1: refuted as stated. On the solved instance `bC1` (stepIndex = 1 =
len(solution)), playing a further move is not a no-op: stepIndex changes
(to 2, exceeding len(solution)) and lastMoveCorrect changes. -/
theorem c1_counterexample :
    bC1.solution.length ≤ bC1.stepIndex
    ∧ (moveUpdate bC1 { from_ := "a2", to_ := "a3" }).stepIndex ≠ bC1.stepIndex
    ∧ (moveUpdate bC1 { from_ := "a2", to_ := "a3" }).stepIndex > bC1.solution.length
    ∧ (moveUpdate bC1 { from_ := "a2", to_ := "a3" }).lastMoveCorrect
        ≠ bC1.lastMoveCorrect := by decide

/-- C1 (amended): when stepIndex is at least len(solution), a further move is
treated as matching, not as a no-op: stepIndex increments by 1 (so it can
exceed len(solution)), lastMove/lastMoveCorrect are set to the played move /
true, solved is set to true when the solution is non-empty (left unchanged
otherwise), and version bumps. -/
theorem c1_amended (b : BoardModel) (last : LastMove)
    (h : b.solution.length ≤ b.stepIndex) :
    (moveUpdate b last).stepIndex = b.stepIndex + 1
    ∧ (moveUpdate b last).lastMove = some last
    ∧ (moveUpdate b last).lastMoveCorrect = some true
    ∧ (moveUpdate b last).solved
        = (if 0 < b.solution.length then true else b.solved)
    ∧ (moveUpdate b last).version = b.version + 1 := by
  have hm := playedMatches_of_out_of_range b last h
  have h1 : b.solution.length ≤ b.stepIndex + 1 := Nat.le_succ_of_le h
  unfold moveUpdate
  rw [hm]
  unfold solvedNow
  simp [h1]

/-- Witness for c1_amended at the concrete solved instance `bC1`. -/
theorem c1_amended_witness :
    bC1.solution.length ≤ bC1.stepIndex
    ∧ ((moveUpdate bC1 { from_ := "a2", to_ := "a3" }).stepIndex = bC1.stepIndex + 1
       ∧ (moveUpdate bC1 { from_ := "a2", to_ := "a3" }).lastMove
           = some { from_ := "a2", to_ := "a3" }
       ∧ (moveUpdate bC1 { from_ := "a2", to_ := "a3" }).lastMoveCorrect = some true
       ∧ (moveUpdate bC1 { from_ := "a2", to_ := "a3" }).solved
           = (if 0 < bC1.solution.length then true else bC1.solved)
       ∧ (moveUpdate bC1 { from_ := "a2", to_ := "a3" }).version = bC1.version + 1) :=
  ⟨by decide, c1_amended bC1 { from_ := "a2", to_ := "a3" } (by decide)⟩

/-- C3: with stepIndex in range, a move is classified correct iff its from-
and to-squares equal the expected step's; the promotion field of the
expected step is never consulted (erasing every promotion changes nothing;
the played `LastMove` carries no promotion field at all). -/
theorem c3_promotion_not_compared (b : BoardModel) (last : LastMove)
    (h : b.stepIndex < b.solution.length) :
    (playedMatches b last = true ↔
      ((b.solution.get ⟨b.stepIndex, h⟩).from_ = last.from_
        ∧ (b.solution.get ⟨b.stepIndex, h⟩).to_ = last.to_))
    ∧ playedMatches { b with solution := b.solution.map erasePromo } last
        = playedMatches b last := by
  constructor
  · unfold playedMatches
    rw [List.get?_eq_get h]
    simp
  · show playedMatches ⟨b.id, b.chess, b.liked, b.starred, b.version, b.tactic,
      b.sideToPlay, b.lastMove, b.solution.map erasePromo, b.stepIndex, b.solved,
      b.correctSquares, b.lastMoveCorrect⟩ last = playedMatches b last
    unfold playedMatches
    simp only [List.get?_map]
    cases b.solution.get? b.stepIndex with
    | none => rfl
    | some m => rfl

/-- Witness for c3_promotion_not_compared on the first preset board and the
move e2-e4. -/
theorem c3_witness :
    (createBoardFromPreset (presetAt 0) "b-0").stepIndex
      < (createBoardFromPreset (presetAt 0) "b-0").solution.length
    ∧ ((playedMatches (createBoardFromPreset (presetAt 0) "b-0")
          { from_ := "e2", to_ := "e4" } = true ↔
        (((createBoardFromPreset (presetAt 0) "b-0").solution.get
            ⟨(createBoardFromPreset (presetAt 0) "b-0").stepIndex, by decide⟩).from_
            = "e2"
          ∧ ((createBoardFromPreset (presetAt 0) "b-0").solution.get
            ⟨(createBoardFromPreset (presetAt 0) "b-0").stepIndex, by decide⟩).to_
            = "e4"))
      ∧ playedMatches { createBoardFromPreset (presetAt 0) "b-0" with
            solution := (createBoardFromPreset (presetAt 0) "b-0").solution.map erasePromo }
          { from_ := "e2", to_ := "e4" }
          = playedMatches (createBoardFromPreset (presetAt 0) "b-0")
              { from_ := "e2", to_ := "e4" }) :=
  ⟨by decide, c3_promotion_not_compared (createBoardFromPreset (presetAt 0) "b-0")
    { from_ := "e2", to_ := "e4" } (by decide)⟩

/-- C4: an incorrect move (stepIndex in range, from/to not matching the
expected step) leaves stepIndex, solved, and every other progression field
unchanged, and only records the played move as incorrect (lastMove set,
lastMoveCorrect = false, version bumped); the instance keeps its solution
and position, so it remains playable. -/
theorem c4_incorrect_move_no_advance (b : BoardModel) (last : LastMove)
    (h : b.stepIndex < b.solution.length)
    (hm : playedMatches b last = false) :
    (moveUpdate b last).stepIndex = b.stepIndex
    ∧ (moveUpdate b last).solved = b.solved
    ∧ (moveUpdate b last).lastMoveCorrect = some false
    ∧ (moveUpdate b last).lastMove = some last
    ∧ (moveUpdate b last).solution = b.solution
    ∧ (moveUpdate b last).chess = b.chess
    ∧ (moveUpdate b last).liked = b.liked
    ∧ (moveUpdate b last).starred = b.starred := by
  simp [moveUpdate, hm]

/-- Witness for c4_incorrect_move_no_advance: the first preset puzzle
(solution e2-e4) with the non-solution move d2-d4 (Scenario B). -/
theorem c4_witness :
    ((createBoardFromPreset (presetAt 0) "b-0").stepIndex
        < (createBoardFromPreset (presetAt 0) "b-0").solution.length
      ∧ playedMatches (createBoardFromPreset (presetAt 0) "b-0")
          { from_ := "d2", to_ := "d4" } = false)
    ∧ ((moveUpdate (createBoardFromPreset (presetAt 0) "b-0")
          { from_ := "d2", to_ := "d4" }).stepIndex
          = (createBoardFromPreset (presetAt 0) "b-0").stepIndex
       ∧ (moveUpdate (createBoardFromPreset (presetAt 0) "b-0")
          { from_ := "d2", to_ := "d4" }).solved
          = (createBoardFromPreset (presetAt 0) "b-0").solved
       ∧ (moveUpdate (createBoardFromPreset (presetAt 0) "b-0")
          { from_ := "d2", to_ := "d4" }).lastMoveCorrect = some false
       ∧ (moveUpdate (createBoardFromPreset (presetAt 0) "b-0")
          { from_ := "d2", to_ := "d4" }).lastMove
          = some { from_ := "d2", to_ := "d4" }
       ∧ (moveUpdate (createBoardFromPreset (presetAt 0) "b-0")
          { from_ := "d2", to_ := "d4" }).solution
          = (createBoardFromPreset (presetAt 0) "b-0").solution
       ∧ (moveUpdate (createBoardFromPreset (presetAt 0) "b-0")
          { from_ := "d2", to_ := "d4" }).chess
          = (createBoardFromPreset (presetAt 0) "b-0").chess
       ∧ (moveUpdate (createBoardFromPreset (presetAt 0) "b-0")
          { from_ := "d2", to_ := "d4" }).liked
          = (createBoardFromPreset (presetAt 0) "b-0").liked
       ∧ (moveUpdate (createBoardFromPreset (presetAt 0) "b-0")
          { from_ := "d2", to_ := "d4" }).starred
          = (createBoardFromPreset (presetAt 0) "b-0").starred) :=
  ⟨⟨by decide, by decide⟩,
   c4_incorrect_move_no_advance (createBoardFromPreset (presetAt 0) "b-0")
     { from_ := "d2", to_ := "d4" } (by decide) (by decide)⟩

lemma moveUpdate_empty_solution (b : BoardModel) (m : LastMove)
    (hsol : b.solution = []) (hsolved : b.solved = false) :
    (moveUpdate b m).solution = [] ∧ (moveUpdate b m).solved = false := by
  have hm : playedMatches b m = true := by
    apply playedMatches_of_out_of_range
    rw [hsol]
    exact Nat.zero_le _
  have hs : solvedNow b = false := by
    unfold solvedNow
    rw [hsol]
    simp
  unfold moveUpdate
  rw [hm]
  simp [hs, hsol, hsolved]

/-- C5: an instance whose solution is empty never becomes solved, whatever
sequence of moves is played on it. -/
theorem c5_empty_solution_never_solved (moves : List LastMove) (b : BoardModel)
    (hsol : b.solution = []) (hsolved : b.solved = false) :
    (moves.foldl moveUpdate b).solved = false := by
  induction moves generalizing b with
  | nil => simpa using hsolved
  | cons m ms ih =>
    simp only [List.foldl_cons]
    exact ih (moveUpdate b m) (moveUpdate_empty_solution b m hsol hsolved).1
      (moveUpdate_empty_solution b m hsol hsolved).2

/-- An instance with an empty solution list (a degenerate catalog entry). -/
def bEmptySolution : BoardModel :=
  { createBoardFromPreset (presetAt 0) "b-0" with solution := [] }

/-- Witness for c5_empty_solution_never_solved on two played moves. -/
theorem c5_witness :
    (bEmptySolution.solution = [] ∧ bEmptySolution.solved = false)
    ∧ ([{ from_ := "e2", to_ := "e4" }, { from_ := "d2", to_ := "d4" }].foldl
        moveUpdate bEmptySolution).solved = false :=
  ⟨⟨by decide, by decide⟩,
   c5_empty_solution_never_solved
     [{ from_ := "e2", to_ := "e4" }, { from_ := "d2", to_ := "d4" }]
     bEmptySolution (by decide) (by decide)⟩

/-- A fresh instance of the first preset, used to exhibit the
version-counter behavior of the reaction toggles. -/
def bLikeDemo : BoardModel := createBoardFromPreset (presetAt 0) "b-0"

/-- C8: refuted as stated. Toggling liked on instance b-0 mutates the
instance (liked flips) but does not increase its version counter. -/
theorem c8_counterexample :
    ((toggleLike [bLikeDemo] "b-0").headD bLikeDemo).liked ≠ bLikeDemo.liked
    ∧ ¬ (((toggleLike [bLikeDemo] "b-0").headD bLikeDemo).version
          > bLikeDemo.version)
    ∧ ((toggleStar [bLikeDemo] "b-0").headD bLikeDemo).starred ≠ bLikeDemo.starred
    ∧ ¬ (((toggleStar [bLikeDemo] "b-0").headD bLikeDemo).version
          > bLikeDemo.version) := by decide

/-- C8 (amended): playing a move strictly increases the instance's version
counter (by exactly 1, in both the correct and incorrect branch), but the
liked/starred toggles leave every version counter unchanged. -/
theorem c8_amended (b : BoardModel) (last : LastMove)
    (boards : List BoardModel) (id : String) :
    (moveUpdate b last).version = b.version + 1
    ∧ (toggleLike boards id).map BoardModel.version
        = boards.map BoardModel.version
    ∧ (toggleStar boards id).map BoardModel.version
        = boards.map BoardModel.version := by
  refine ⟨?_, ?_, ?_⟩
  · unfold moveUpdate
    split <;> rfl
  · induction boards with
    | nil => rfl
    | cons x xs ih =>
      simp only [toggleLike, List.map_cons] at ih ⊢
      rw [ih]
      split <;> rfl
  · induction boards with
    | nil => rfl
    | cons x xs ih =>
      simp only [toggleStar, List.map_cons] at ih ⊢
      rw [ih]
      split <;> rfl

/-- C9: refuted as stated. With the repository's config
(FORCE_ONBOARDING_EVERY_TIME = true), a persisted flag that reads as
completed ("1") still routes to onboarding, not to the puzzles feed. -/
theorem c9_counterexample :
    splashRoute (some (some "1")) = "/onboarding"
    ∧ splashRoute (some (some "1")) ≠ "/(tabs)/puzzles" := by decide

/-- C9 (amended): because FORCE_ONBOARDING_EVERY_TIME is true in the
repository's config, startup always routes to onboarding regardless of the
persisted flag; were the force switch false, a completed flag would route to
the puzzles feed and anything else to onboarding; a failed or null read
defaults to not completed; and the onboarding screen's completeAndEnter
handler writes the flag so a subsequent read reports completed, and enters
the puzzles feed. -/
theorem c9_amended :
    (∀ res, splashRoute res = "/onboarding")
    ∧ decideRoute false true = "/(tabs)/puzzles"
    ∧ decideRoute false false = "/onboarding"
    ∧ readCompleted none = false
    ∧ readCompleted (some none) = false
    ∧ ∀ store : String → Option String,
        readCompleted (some ((completeAndEnter store).1 "onboardingCompleted"))
            = true
          ∧ (completeAndEnter store).2 = "/(tabs)/puzzles" := by
  refine ⟨?_, rfl, rfl, rfl, rfl, ?_⟩
  · intro res
    rfl
  · intro store
    exact ⟨by simp [completeAndEnter, readCompleted], rfl⟩

lemma moveUpdate_keeps_solved (b : BoardModel) (last : LastMove)
    (h : b.solved = true) : (moveUpdate b last).solved = true := by
  unfold moveUpdate
  split
  · simp only
    split <;> simp [h]
  · simpa using h

lemma stepMove_of_get (b : BoardModel) (m : MoveSpec)
    (hget : b.solution.get? b.stepIndex = some m) :
    stepMove b = moveUpdate b { from_ := m.from_, to_ := m.to_ } := by
  unfold stepMove
  rw [hget]

lemma stepMove_inv (ss : List MoveSpec) (b₀ : BoardModel)
    (h₁ : b₀.solution = ss) (h₂ : b₀.stepIndex = 0) (h₃ : b₀.solved = false)
    (hne : ss ≠ []) :
    ∀ k, k ≤ ss.length →
      (stepMove^[k] b₀).solution = ss
      ∧ (stepMove^[k] b₀).stepIndex = k
      ∧ (stepMove^[k] b₀).solved = decide (k = ss.length) := by
  have hL : 0 < ss.length := List.length_pos.mpr hne
  intro k
  induction k with
  | zero =>
    intro _
    refine ⟨by simpa using h₁, by simpa using h₂, ?_⟩
    rw [decide_eq_false (by omega)]
    simpa using h₃
  | succ k ih =>
    intro hk1
    obtain ⟨hs, hi, hv⟩ := ih (Nat.le_of_succ_le hk1)
    have hklt : k < ss.length := hk1
    rw [Function.iterate_succ_apply']
    have hget : (stepMove^[k] b₀).solution.get? (stepMove^[k] b₀).stepIndex
        = some (ss.get ⟨k, hklt⟩) := by
      rw [hs, hi, List.get?_eq_get hklt]
    have hm : playedMatches (stepMove^[k] b₀)
        { from_ := (ss.get ⟨k, hklt⟩).from_, to_ := (ss.get ⟨k, hklt⟩).to_ }
        = true := by
      unfold playedMatches
      rw [hget]
      simp
    rw [stepMove_of_get _ _ hget]
    unfold moveUpdate
    rw [hm]
    simp only [if_true]
    refine ⟨hs, by rw [hi], ?_⟩
    unfold solvedNow
    rw [hs, hi, hv]
    by_cases hcase : k + 1 = ss.length
    · have e1 : ss.length ≤ k + 1 := by omega
      simp [e1, hL, hcase]
    · have e1 : ¬ (ss.length ≤ k + 1) := by omega
      have e2 : ¬ (k = ss.length) := by omega
      simp [e1, e2, hcase]

/-- C2: starting a non-empty-solution instance from stepIndex 0 and playing
the expected solution moves in order, stepIndex advances by exactly 1 per
call, reaching k after k calls, and solved holds exactly from the final
step on (true iff k = len(solution)); moreover a solved instance stays
solved under any further played move. -/
theorem c2_solution_drives_to_solved (ss : List MoveSpec) (b₀ : BoardModel)
    (h₁ : b₀.solution = ss) (h₂ : b₀.stepIndex = 0) (h₃ : b₀.solved = false)
    (hne : ss ≠ []) (k : Nat) (hk : k ≤ ss.length)
    (b' : BoardModel) (last' : LastMove) (hb' : b'.solved = true) :
    (stepMove^[k] b₀).stepIndex = k
    ∧ ((stepMove^[k] b₀).solved = true ↔ k = ss.length)
    ∧ (moveUpdate b' last').solved = true := by
  obtain ⟨-, hi, hv⟩ := stepMove_inv ss b₀ h₁ h₂ h₃ hne k hk
  exact ⟨hi, by rw [hv]; simp, moveUpdate_keeps_solved b' last' hb'⟩

/-- Witness for c2_solution_drives_to_solved: Scenario C, the two-step Fork
puzzle (preset index 2) played to completion, plus a concrete solved
instance staying solved. -/
theorem c2_witness :
    ((createBoardFromPreset (presetAt 2) "b-2").solution = (presetAt 2).solution
      ∧ (createBoardFromPreset (presetAt 2) "b-2").stepIndex = 0
      ∧ (createBoardFromPreset (presetAt 2) "b-2").solved = false
      ∧ (presetAt 2).solution ≠ []
      ∧ 2 ≤ (presetAt 2).solution.length
      ∧ bC1.solved = true)
    ∧ ((stepMove^[2] (createBoardFromPreset (presetAt 2) "b-2")).stepIndex = 2
      ∧ ((stepMove^[2] (createBoardFromPreset (presetAt 2) "b-2")).solved = true
          ↔ 2 = (presetAt 2).solution.length)
      ∧ (moveUpdate bC1 { from_ := "h7", to_ := "h6" }).solved = true) :=
  ⟨⟨by decide, by decide, by decide, by decide, by decide, by decide⟩,
   c2_solution_drives_to_solved (presetAt 2).solution
     (createBoardFromPreset (presetAt 2) "b-2") (by decide) (by decide)
     (by decide) (by decide) 2 (by decide) bC1 { from_ := "h7", to_ := "h6" }
     (by decide)⟩

/-- C6: for an unsolved instance at feed index i in a feed of length total,
playing a move schedules an auto-advance exactly when the move is classified
incorrect or it makes the instance solved, and the scheduled target is
always min(i+1, total-1); a correct move that leaves the instance unsolved
schedules nothing. -/
theorem c6_advance_schedule (b : BoardModel) (last : LastMove) (i total : Nat)
    (h : b.solved = false) :
    (moveAdvance b last i total = some (min (i + 1) (total - 1))
      ↔ (playedMatches b last = false ∨ (moveUpdate b last).solved = true))
    ∧ (playedMatches b last = true → (moveUpdate b last).solved = false →
        moveAdvance b last i total = none) := by
  by_cases hm : playedMatches b last
  · by_cases hsn : solvedNow b
    · constructor
      · simp [moveAdvance, moveUpdate, hm, hsn]
      · intro _ hsolved
        simp [moveUpdate, hm, hsn] at hsolved
    · constructor
      · simp [moveAdvance, moveUpdate, hm, hsn, h]
      · intro _ _
        simp [moveAdvance, hm, hsn]
  · constructor
    · simp [moveAdvance, moveUpdate, hm]
    · intro hm' _
      rw [hm'] at hm
      exact absurd rfl hm

/-- Witness for c6_advance_schedule: the fresh first preset at feed index 0
of a 2-item feed, with the incorrect move d2-d4 (Scenario B). -/
theorem c6_witness :
    (createBoardFromPreset (presetAt 0) "b-0").solved = false
    ∧ ((moveAdvance (createBoardFromPreset (presetAt 0) "b-0")
          { from_ := "d2", to_ := "d4" } 0 2 = some (min (0 + 1) (2 - 1))
        ↔ (playedMatches (createBoardFromPreset (presetAt 0) "b-0")
              { from_ := "d2", to_ := "d4" } = false
            ∨ (moveUpdate (createBoardFromPreset (presetAt 0) "b-0")
                { from_ := "d2", to_ := "d4" }).solved = true))
      ∧ (playedMatches (createBoardFromPreset (presetAt 0) "b-0")
            { from_ := "d2", to_ := "d4" } = true →
          (moveUpdate (createBoardFromPreset (presetAt 0) "b-0")
            { from_ := "d2", to_ := "d4" }).solved = false →
          moveAdvance (createBoardFromPreset (presetAt 0) "b-0")
            { from_ := "d2", to_ := "d4" } 0 2 = none)) :=
  ⟨by decide,
   c6_advance_schedule (createBoardFromPreset (presetAt 0) "b-0")
     { from_ := "d2", to_ := "d4" } 0 2 (by decide)⟩

/-- Invariant of the feed controller: the append cursor equals the number of
materialized boards, and board i was built from catalog entry i mod K with
id `b-i`. -/
def FeedGood (s : FeedState) : Prop :=
  s.cursor = s.boards.length
  ∧ ∀ (j : Nat) (h : j < s.boards.length),
      s.boards.get ⟨j, h⟩ = createBoardFromPreset (presetAt j) ("b-" ++ toString j)

lemma feedGood_init (n : Nat) : FeedGood (initBoards n) := by
  constructor
  · simp [initBoards]
  · intro j h
    simp [initBoards, List.get_eq_getElem]

lemma feedGood_add (s : FeedState) (hs : FeedGood s) : FeedGood (addBoard s) := by
  obtain ⟨hc, hg⟩ := hs
  constructor
  · simp [addBoard, hc]
  · intro j h
    simp only [addBoard, List.length_append, List.length_cons, List.length_nil] at h
    rw [List.get_eq_getElem]
    by_cases hj : j < s.boards.length
    · simp only [addBoard]
      rw [List.getElem_append_left hj]
      simpa using hg j hj
    · have hje : j = s.boards.length := by omega
      subst hje
      simp only [addBoard]
      rw [List.getElem_append_right (Nat.le_refl _)]
      simp [hc]

lemma feedGood_iterate (n k : Nat) : FeedGood (addBoard^[k] (initBoards n)) := by
  induction k with
  | zero => exact feedGood_init n
  | succ k ih =>
    rw [Function.iterate_succ_apply']
    exact feedGood_add _ ih

/-- C7: in any feed state reachable by initializing n instances and
appending k more, the instance at position j is built from catalog entry
j mod K (with id `b-j`); and appending never disturbs existing positions
(the previous boards stay a prefix, in order). -/
theorem c7_catalog_cycling (n k j : Nat)
    (h : j < (addBoard^[k] (initBoards n)).boards.length) :
    (addBoard^[k] (initBoards n)).boards.get ⟨j, h⟩
      = createBoardFromPreset (presetAt j) ("b-" ++ toString j)
    ∧ ∀ s : FeedState, (addBoard s).boards.take s.boards.length = s.boards := by
  refine ⟨(feedGood_iterate n k).2 j h, ?_⟩
  intro s
  simp [addBoard]

/-- Witness for c7_catalog_cycling: initialize(2) plus one append; the board
at position 2 is built from catalog entry 2 with id b-2. -/
theorem c7_witness :
    2 < (addBoard^[1] (initBoards 2)).boards.length
    ∧ ((addBoard^[1] (initBoards 2)).boards.get ⟨2, by decide⟩
        = createBoardFromPreset (presetAt 2) ("b-" ++ toString 2)
      ∧ ∀ s : FeedState, (addBoard s).boards.take s.boards.length = s.boards) :=
  ⟨by decide, c7_catalog_cycling 2 1 2 (by decide)⟩

/-- C10: a mutating operation addressed by id — playing a move, toggling
liked, toggling starred — leaves every instance with a different id
completely unchanged (all fields, including its position in the feed). -/
theorem c10_other_instances_unchanged (boards : List BoardModel) (id : String)
    (last : LastMove) (j : Nat) (b' : BoardModel)
    (hj : boards.get? j = some b') (hid : b'.id ≠ id) :
    (onMovePlayed boards id last).get? j = some b'
    ∧ (toggleLike boards id).get? j = some b'
    ∧ (toggleStar boards id).get? j = some b' := by
  refine ⟨?_, ?_, ?_⟩
  · unfold onMovePlayed
    rw [List.get?_map, hj]
    simp [hid]
  · unfold toggleLike
    rw [List.get?_map, hj]
    simp [hid]
  · unfold toggleStar
    rw [List.get?_map, hj]
    simp [hid]

/-- Witness for c10_other_instances_unchanged: a move played on b-0 of the
initial 2-board feed leaves b-1 (position 1) untouched, and likewise the
like/star toggles. -/
theorem c10_witness :
    ((initBoards 2).boards.get? 1
        = some (createBoardFromPreset (presetAt 1) ("b-" ++ toString 1))
      ∧ (createBoardFromPreset (presetAt 1) ("b-" ++ toString 1)).id ≠ "b-0")
    ∧ ((onMovePlayed (initBoards 2).boards "b-0" { from_ := "e2", to_ := "e4" }).get? 1
        = some (createBoardFromPreset (presetAt 1) ("b-" ++ toString 1))
      ∧ (toggleLike (initBoards 2).boards "b-0").get? 1
        = some (createBoardFromPreset (presetAt 1) ("b-" ++ toString 1))
      ∧ (toggleStar (initBoards 2).boards "b-0").get? 1
        = some (createBoardFromPreset (presetAt 1) ("b-" ++ toString 1))) :=
  ⟨⟨by decide, by decide⟩,
   c10_other_instances_unchanged (initBoards 2).boards "b-0"
     { from_ := "e2", to_ := "e4" } 1
     (createBoardFromPreset (presetAt 1) ("b-" ++ toString 1))
     (by decide) (by decide)⟩
